import Mathlib

/-!
Shallow embedding of `src/orbit/diagnostics/plot.py` (the plotting helpers of
the orbit forecasting library) together with theorems checking the
natural-language design document of the repository against it.

Modelling conventions:
* A pandas `DataFrame` is a list of column names plus a list of rows, each row
  a list of cell values.  Cell values (dates, observations, predictions,
  split keys, boolean flags) are modelled as integers; `pd.to_datetime` is the
  identity on this already-comparable date representation.
* Drawing primitives of matplotlib (`ax.plot`, `ax.scatter`, `ax.fill_between`,
  `ax.axvline`, `plt.bar`) are modelled as pure draw commands accumulated in
  the order the code issues them; colors are the palette member names used in
  the source.  Drawing primitives themselves never fail.
* A function that can `raise ValueError` (or hit an `IndexError` /
  `ZeroDivisionError`) returns `Except PlotError …`; an error result means the
  exception was raised before any drawing side effect, exactly as in the
  source where all validation precedes figure creation.
* `path` / `is_visible` are kept and recorded in the output (`fig.savefig` /
  `plt.show` vs `plt.close`), since the verified properties quantify over them.
-/

namespace Orbit

/-- Cell values of a table: dates, responses, predictions, split keys and the
`training_data` flag (0 = False, nonzero = True) are all integers. -/
abbrev Value := Int

/-- A pandas data frame: named columns and a list of rows. -/
structure DataFrame where
  columns : List String
  rows : List (List Value)
deriving Repr, DecidableEq

/-- Number of rows, `len(df)`. -/
def DataFrame.numRows (df : DataFrame) : Nat := df.rows.length

/-- `c in df.columns`. -/
def DataFrame.hasCol (df : DataFrame) (c : String) : Bool := decide (c ∈ df.columns)

/-- `df[c]`: the column as a list of values.  A missing column yields `[]`
(the verified properties only inspect columns that are present). -/
def DataFrame.getCol (df : DataFrame) (c : String) : List Value :=
  match df.columns.findIdx? (fun s => s == c) with
  | some i => df.rows.map (fun r => r.getD i 0)
  | none => []

/-- `df[df[c] == v]`: keep the rows whose cell in column `c` equals `v`. -/
def DataFrame.filterEq (df : DataFrame) (c : String) (v : Value) : DataFrame :=
  match df.columns.findIdx? (fun s => s == c) with
  | some i => { df with rows := df.rows.filter (fun r => r.getD i 0 == v) }
  | none => df

/-- `df[~df[c]]`: keep the rows whose boolean cell in column `c` is falsy. -/
def DataFrame.filterFalse (df : DataFrame) (c : String) : DataFrame :=
  match df.columns.findIdx? (fun s => s == c) with
  | some i => { df with rows := df.rows.filter (fun r => r.getD i 0 == 0) }
  | none => df

/-- Modelled from the spec: `orbit.utils.general.is_empty_dataframe` (imported
by `plot.py` but not part of the given sources) — true when the required
table has zero rows ("empty-input errors — raised when a required table has
zero rows"). -/
def is_empty_dataframe (df : DataFrame) : Bool := df.rows.isEmpty

/-- Modelled from the spec: `orbit.utils.general.is_ordered_datetime`
(imported by `plot.py` but not part of the given sources) — true when the
timestamps are strictly increasing ("timestamps must be strictly
increasing"). -/
def is_ordered_datetime : List Value → Bool
  | [] => true
  | [_] => true
  | x :: y :: rest => decide (x < y) && is_ordered_datetime (y :: rest)

/-- `pd.Series.unique()`: distinct values in order of first occurrence
(tail-recursive accumulator, mirroring a left-to-right scan). -/
def pdUniqueGo : List Value → List Value → List Value
  | acc, [] => acc
  | acc, x :: xs => pdUniqueGo (if x ∈ acc then acc else acc ++ [x]) xs

/-- `pd.Series.unique()` applied to a column. -/
def pdUnique (xs : List Value) : List Value := pdUniqueGo [] xs

/-- Exceptions raised by the plotting functions. -/
inductive PlotError where
  | valueError (msg : String)
  | indexError
  | zeroDivision
deriving Repr, DecidableEq

/-- Did the call finish without raising? -/
def noRaise : Except PlotError α → Bool
  | .ok _ => true
  | .error _ => false

/-- One matplotlib drawing command, in issue order. -/
inductive DrawCmd where
  | scatter (xs ys : List Value) (color : String)
  | line (xs ys : List Value) (color : String)
  | vline (x : Value) (color : String)
  | fill_between (xs lower upper : List Value) (color : String)
  | bar (pos : List ℚ) (heights : List Value) (colorIdx : Nat) (width : ℚ)
deriving Repr, DecidableEq

/-- The single axes object built and returned by `plot_predicted_data`,
together with the figure-level effects. -/
structure PredPlot where
  cmds : List DrawCmd
  title : String
  saved : Option String
  shown : Bool
deriving Repr, DecidableEq

/-- The two derived bound column names `prediction_{lower}` / `prediction_{upper}`. -/
def confidColNames (pcts : List Int) : List String :=
  ["prediction_" ++ toString (pcts.getD 0 0), "prediction_" ++ toString (pcts.getD 1 0)]

/-- Embedding of `plot_predicted_data` (plot.py lines 18–151).
Validation order is exactly the source's: empty-table check, prediction-date
ordering check, percentile-pair length check; only then is the figure created
and drawn on. -/
def plot_predicted_data (training_actual_df predicted_df : DataFrame)
    (date_col actual_col : String) (pred_col : String)
    (prediction_percentiles : Option (List Int))
    (title : String) (test_actual_df : Option DataFrame)
    (path : Option String) (line_plot : Bool) (is_visible : Bool) :
    Except PlotError PredPlot :=
  if is_empty_dataframe training_actual_df || is_empty_dataframe predicted_df then
    .error (.valueError "No prediction data or training response to plot.")
  else if !is_ordered_datetime (predicted_df.getCol date_col) then
    .error (.valueError "Prediction df dates is not ordered.")
  else
    let _pred_percentiles := prediction_percentiles.getD [5, 95]
    if _pred_percentiles.length ≠ 2 then
      .error (.valueError "prediction_percentiles has to be None or a list with length=2.")
    else
      let confid_cols := confidColNames _pred_percentiles
      let plot_confid := confid_cols.all (fun c => predicted_df.hasCol c)
      let trainDates := training_actual_df.getCol date_col
      let predDates := predicted_df.getCol date_col
      let trainCmd :=
        if line_plot then
          DrawCmd.line trainDates (training_actual_df.getCol actual_col) "ACTUAL_OBS"
        else
          DrawCmd.scatter trainDates (training_actual_df.getCol actual_col) "ACTUAL_OBS"
      let predCmd :=
        DrawCmd.line predDates (predicted_df.getCol pred_col) "PREDICTION_LINE"
      let vlineCmds :=
        if trainDates.getLastD 0 < predDates.getLastD 0 then
          [DrawCmd.vline (trainDates.getLastD 0) "HOLDOUT_VERTICAL_LINE"]
        else []
      let testCmds :=
        match test_actual_df with
        | none => []
        | some tdf =>
          if line_plot then
            [DrawCmd.line (tdf.getCol date_col) (tdf.getCol actual_col) "TEST_OBS"]
          else
            [DrawCmd.scatter (tdf.getCol date_col) (tdf.getCol actual_col) "TEST_OBS"]
      let confidCmds :=
        if plot_confid then
          [DrawCmd.fill_between predDates
            (predicted_df.getCol (confid_cols.getD 0 ""))
            (predicted_df.getCol (confid_cols.getD 1 "")) "PREDICTION_INTERVAL"]
        else []
      .ok { cmds := [trainCmd, predCmd] ++ vlineCmds ++ testCmds ++ confidCmds,
            title := title, saved := path, shown := is_visible }

/-- One stacked sub-panel of the component plot. -/
structure Panel where
  component : String
  cmds : List DrawCmd
deriving Repr, DecidableEq

/-- The axes array returned by `plot_predicted_components`, plus figure-level
effects. -/
structure ComponentPlot where
  axes : List Panel
  title : String
  saved : Option String
  shown : Bool
deriving Repr, DecidableEq

/-- Embedding of `plot_predicted_components` (plot.py lines 154–235).
The requested component list is filtered to the columns actually present;
one panel is produced per remaining component, in request order.  The only
validation is the percentile-pair length check. -/
def plot_predicted_components (predicted_df : DataFrame) (date_col : String)
    (prediction_percentiles : Option (List Int))
    (plot_components : Option (List String)) (title : String)
    (path : Option String) (is_visible : Bool) :
    Except PlotError ComponentPlot :=
  let requested := plot_components.getD ["trend", "seasonality", "regression"]
  let comps := requested.filter (fun p => predicted_df.hasCol p)
  let _pred_percentiles := prediction_percentiles.getD [5, 95]
  if _pred_percentiles.length ≠ 2 then
    .error (.valueError "prediction_percentiles has to be None or a list with length=2.")
  else
    let axes := comps.map (fun comp =>
      let confid_cols := [comp ++ "_" ++ toString (_pred_percentiles.getD 0 0),
                          comp ++ "_" ++ toString (_pred_percentiles.getD 1 0)]
      let bandCmds :=
        if confid_cols.all (fun c => predicted_df.hasCol c) then
          [DrawCmd.fill_between (predicted_df.getCol date_col)
            (predicted_df.getCol (confid_cols.getD 0 ""))
            (predicted_df.getCol (confid_cols.getD 1 "")) "PREDICTION_INTERVAL"]
        else []
      { component := comp,
        cmds := DrawCmd.line (predicted_df.getCol date_col)
                  (predicted_df.getCol comp) "PREDICTION_INTERVAL" :: bandCmds })
    .ok { axes := axes, title := title, saved := path, shown := is_visible }

/-- The figure produced by `metric_horizon_barplot`.  The Python function has
no `return` statement, so the value handed back to the caller is `None`:
field `ret` records that (always `none`). -/
structure BarPlot where
  cmds : List DrawCmd
  xticks : List ℚ
  xtickLabels : List Value
  saved : Option String
  shown : Bool
  ret : Option Unit
deriving Repr, DecidableEq

/-- Distinct models in first-occurrence order, `df[model_col].unique()`. -/
def models (df : DataFrame) (model_col : String) : List Value :=
  pdUnique (df.getCol model_col)

/-- The per-model bar heights, `list(df[df[model_col] == m][metric_col])` for
each distinct model `m`. -/
def modelBars (df : DataFrame) (model_col metric_col : String) : List (List Value) :=
  (models df model_col).map (fun m => (df.filterEq model_col m).getCol metric_col)

/-- The bar positions of the k-th model: `r[0] = np.arange(len(bars[0]))` and
`r[k+1] = [x + bar_width for x in r[k]]`. -/
def barPositions (g : Nat) (bar_width : ℚ) : Nat → List ℚ
  | 0 => (List.range g).map (fun i => (i : ℚ))
  | k + 1 => (barPositions g bar_width k).map (fun x => x + bar_width)

/-- Embedding of `metric_horizon_barplot` (plot.py lines 240–286).
With no rows for any model, `len(bars[0])` raises `IndexError`; otherwise one
`plt.bar` call is issued per model, at positions offset by the model index
times the bar width, with the model-index color of the palette.  The function
returns `None` (`ret := none`). -/
def metric_horizon_barplot (df : DataFrame)
    (model_col pred_horizon_col metric_col : String) (bar_width : ℚ)
    (path : Option String) (is_visible : Bool) :
    Except PlotError BarPlot :=
  let ms := models df model_col
  let metric_horizons := pdUnique (df.getCol pred_horizon_col)
  let n_models := ms.length
  let bars := modelBars df model_col metric_col
  if n_models = 0 then
    .error .indexError
  else
    let g := (bars.getD 0 []).length
    let barCmds := (List.range n_models).map (fun idx =>
      DrawCmd.bar (barPositions g bar_width idx) (bars.getD idx []) idx bar_width)
    let xticks := (List.range g).map (fun x => (x : ℚ) + bar_width)
    .ok { cmds := barCmds, xticks := xticks, xtickLabels := metric_horizons,
          saved := path, shown := is_visible, ret := none }

/-- One panel of the backtest grid: its grid position, split key, drawing
commands and the metric value shown in its title. -/
structure BTPanel where
  row : Nat
  col : Nat
  split_key : Value
  cmds : List DrawCmd
  title_metric : Value
deriving Repr, DecidableEq

/-- The axes grid returned by `plot_bt_predictions`, plus figure-level
effects. -/
structure BTPlot where
  nrow : Nat
  ncol : Nat
  panels : List BTPanel
  saved : Option String
  shown : Bool

/-- Per-split metric over the non-training rows only:
`metrics(x[~x['training_data']]['actuals'], x[~x['training_data']]['prediction'])`. -/
def btMetricVal (bt_pred_df : DataFrame)
    (metrics : List Value → List Value → Value) (k : Value) : Value :=
  let g := (bt_pred_df.filterEq "split_key" k).filterFalse "training_data"
  metrics (g.getCol "actuals") (g.getCol "prediction")

/-- Embedding of `plot_bt_predictions` (plot.py lines 466–538).
The grid has `ncol` columns and `math.ceil(num_splits / ncol)` rows (for
`ncol = 0` Python's division raises `ZeroDivisionError`); the panel of the
idx-th selected split sits at row `idx // ncol`, column `idx % ncol`. -/
def plot_bt_predictions (bt_pred_df : DataFrame)
    (metrics : List Value → List Value → Value)
    (split_key_list : Option (List Value)) (ncol : Nat)
    (include_vline : Bool) (path : Option String) (is_visible : Bool) :
    Except PlotError BTPlot :=
  let split_keys := split_key_list.getD (pdUnique (bt_pred_df.getCol "split_key"))
  let num_splits := split_keys.length
  if ncol = 0 then
    .error .zeroDivision
  else
    let nrow := (num_splits + ncol - 1) / ncol
    let panels := split_keys.enum.map (fun ik =>
      let tmp := bt_pred_df.filterEq "split_key" ik.2
      let baseCmds :=
        [DrawCmd.line (tmp.getCol "date") (tmp.getCol "prediction") "PREDICTION_LINE",
         DrawCmd.scatter (tmp.getCol "date") (tmp.getCol "actuals") "ACTUAL_OBS"]
      let vlineCmds :=
        if include_vline then
          [DrawCmd.vline ((((tmp.filterFalse "training_data").getCol "date").min?).getD 0)
            "HOLDOUT_VERTICAL_LINE"]
        else []
      { row := ik.1 / ncol, col := ik.1 % ncol, split_key := ik.2,
        cmds := baseCmds ++ vlineCmds,
        title_metric := btMetricVal bt_pred_df metrics ik.2 })
    .ok { nrow := nrow, ncol := ncol, panels := panels,
          saved := path, shown := is_visible }



/-! ### Concrete sample tables used by witnesses and counterexamples -/

/-- A well-formed training table: strictly increasing dates. -/
def sampleTrain : DataFrame := ⟨["date", "actual"], [[1, 10], [2, 11], [3, 12]]⟩

/-- A training table whose dates are NOT strictly increasing. -/
def sampleTrainUnordered : DataFrame := ⟨["date", "actual"], [[3, 10], [1, 11], [2, 12]]⟩

/-- A single-row training table. -/
def sampleTrainFlat : DataFrame := ⟨["date", "actual"], [[5, 1]]⟩

/-- A well-formed prediction table carrying both default bound columns. -/
def samplePred : DataFrame :=
  ⟨["date", "prediction", "prediction_5", "prediction_95"],
   [[3, 7, 5, 9], [4, 8, 6, 10], [5, 9, 7, 11]]⟩

/-- A prediction table whose dates are NOT strictly increasing. -/
def samplePredUnordered : DataFrame := ⟨["date", "prediction"], [[4, 8], [3, 7]]⟩

/-- A prediction table whose lower-bound column exceeds its upper-bound
column (`prediction_5 = 10 > 0 = prediction_95`). -/
def samplePredCross : DataFrame :=
  ⟨["date", "prediction", "prediction_5", "prediction_95"], [[5, 3, 10, 0]]⟩

/-- A component table containing only `trend` and `seasonality`. -/
def sampleComponents : DataFrame :=
  ⟨["date", "trend", "seasonality"], [[1, 3, 4], [2, 5, 6]]⟩

/-- A table with out-of-order dates and none of the default components. -/
def sampleNoComponents : DataFrame := ⟨["date", "foo"], [[2, 1], [1, 2]]⟩

/-- A metric table: 2 models × 3 horizons, 6 rows. -/
def sampleMetric : DataFrame :=
  ⟨["model", "pred_horizon", "smape"],
   [[1, 1, 10], [1, 2, 11], [1, 3, 12], [2, 1, 20], [2, 2, 21], [2, 3, 22]]⟩

/-- A backtest table with three distinct split keys. -/
def sampleBacktest : DataFrame :=
  ⟨["split_key", "training_data", "actuals", "prediction", "date"],
   [[1, 1, 5, 6, 100], [1, 0, 7, 8, 200], [2, 0, 9, 10, 300], [3, 0, 2, 3, 400]]⟩

/-- A trivial metric function standing in for the `metrics` callable. -/
def zeroMetric : List Value → List Value → Value := fun _ _ => 0

/-- The drawing commands of a successful `plot_predicted_data` call
(`[]` on an exception). -/
def okCmds : Except PlotError PredPlot → List DrawCmd
  | .ok r => r.cmds
  | .error _ => []

/-! ### Helper lemmas -/

theorem is_empty_eq_false {df : DataFrame} (h : df.rows ≠ []) :
    is_empty_dataframe df = false := by
  simp [is_empty_dataframe, h]

theorem is_empty_eq_true {df : DataFrame} (h : df.rows = []) :
    is_empty_dataframe df = true := by
  simp [is_empty_dataframe, h]

theorem col_findIdx_some {cols : List String} {c : String} (h : c ∈ cols) :
    ∃ i, cols.findIdx? (fun s => s == c) = some i := by
  have hs : (cols.findIdx? (fun s => s == c)).isSome = true := by
    rw [List.findIdx?_isSome, List.any_eq_true]
    exact ⟨c, h, by simp⟩
  exact Option.isSome_iff_exists.mp hs

theorem getCol_eq_of_idx {df : DataFrame} {c : String} {i : Nat}
    (h : df.columns.findIdx? (fun s => s == c) = some i) :
    df.getCol c = df.rows.map (fun r => r.getD i 0) := by
  unfold DataFrame.getCol
  rw [h]

theorem getCol_length {df : DataFrame} {c : String} (h : c ∈ df.columns) :
    (df.getCol c).length = df.rows.length := by
  obtain ⟨i, hi⟩ := col_findIdx_some h
  rw [getCol_eq_of_idx hi, List.length_map]

/-! ### C3 -/

/-- C3: `plot_predicted_data` raises the empty-input error exactly when
the training table or the prediction table has zero rows; since every error
is returned before any draw command is produced, the error precedes all
drawing side effects. -/
theorem plot_predicted_data_empty_error_iff (tdf pdf : DataFrame)
    (dc ac pc : String) (pp : Option (List Int)) (ti : String)
    (test : Option DataFrame) (path : Option String) (lp vis : Bool) :
    plot_predicted_data tdf pdf dc ac pc pp ti test path lp vis =
      .error (.valueError "No prediction data or training response to plot.") ↔
      (tdf.rows = [] ∨ pdf.rows = []) := by
  constructor
  · intro h
    by_contra hc
    push_neg at hc
    unfold plot_predicted_data at h
    rw [is_empty_eq_false hc.1, is_empty_eq_false hc.2] at h
    simp only [Bool.or_self, Bool.false_eq_true, if_false] at h
    split at h
    · simp at h
    · split at h
      · simp at h
      · simp at h
  · intro h
    unfold plot_predicted_data
    rcases h with h | h
    · rw [is_empty_eq_true h]
      simp
    · rw [is_empty_eq_true h]
      simp

/-! ### C4 -/

/-- C4: Once the empty-table check passes (both tables non-empty), a
prediction table whose timestamp column is not strictly increasing makes
`plot_predicted_data` raise the ordering error; the error is returned before
any draw command is produced. -/
theorem plot_predicted_data_ordering_error (tdf pdf : DataFrame)
    (dc ac pc : String) (pp : Option (List Int)) (ti : String)
    (test : Option DataFrame) (path : Option String) (lp vis : Bool)
    (h1 : tdf.rows ≠ []) (h2 : pdf.rows ≠ [])
    (h3 : is_ordered_datetime (pdf.getCol dc) = false) :
    plot_predicted_data tdf pdf dc ac pc pp ti test path lp vis =
      .error (.valueError "Prediction df dates is not ordered.") := by
  unfold plot_predicted_data
  rw [is_empty_eq_false h1, is_empty_eq_false h2, h3]
  simp

/-- Witness for C4: a concrete out-of-order prediction table is rejected with
the ordering error. -/
theorem plot_predicted_data_ordering_error_witness :
    plot_predicted_data sampleTrain samplePredUnordered "date" "actual"
      "prediction" none "" none none false false =
      .error (.valueError "Prediction df dates is not ordered.") :=
  plot_predicted_data_ordering_error sampleTrain samplePredUnordered "date"
    "actual" "prediction" none "" none none false false
    (by decide) (by decide) (by decide)

/-! ### C5 -/

/-- C5: On otherwise-valid inputs, an explicitly supplied percentile pair
of length ≠ 2 makes both `plot_predicted_data` and
`plot_predicted_components` raise the shape error, while the `None` default
and any explicit pair of length 2 raise no error at all. -/
theorem percentile_shape_error (tdf pdf cdf : DataFrame)
    (dc dc2 ac pc ti ti2 : String) (ppBad ppGood : List Int)
    (test : Option DataFrame) (path path2 : Option String)
    (lp vis vis2 : Bool) (comps : Option (List String))
    (h1 : tdf.rows ≠ []) (h2 : pdf.rows ≠ [])
    (h3 : is_ordered_datetime (pdf.getCol dc) = true)
    (hbad : ppBad.length ≠ 2) (hgood : ppGood.length = 2) :
    (plot_predicted_data tdf pdf dc ac pc (some ppBad) ti test path lp vis =
      .error (.valueError "prediction_percentiles has to be None or a list with length=2."))
    ∧ (plot_predicted_components cdf dc2 (some ppBad) comps ti2 path2 vis2 =
      .error (.valueError "prediction_percentiles has to be None or a list with length=2."))
    ∧ (∃ r, plot_predicted_data tdf pdf dc ac pc none ti test path lp vis = .ok r)
    ∧ (∃ r, plot_predicted_data tdf pdf dc ac pc (some ppGood) ti test path lp vis = .ok r)
    ∧ (∃ r, plot_predicted_components cdf dc2 none comps ti2 path2 vis2 = .ok r)
    ∧ (∃ r, plot_predicted_components cdf dc2 (some ppGood) comps ti2 path2 vis2 = .ok r) := by
  refine ⟨?_, ?_, ?_, ?_, ?_, ?_⟩
  · unfold plot_predicted_data
    rw [is_empty_eq_false h1, is_empty_eq_false h2, h3]
    simp [hbad]
  · unfold plot_predicted_components
    simp [hbad]
  · unfold plot_predicted_data
    rw [is_empty_eq_false h1, is_empty_eq_false h2, h3]
    simp
  · unfold plot_predicted_data
    rw [is_empty_eq_false h1, is_empty_eq_false h2, h3]
    simp [hgood]
  · unfold plot_predicted_components
    simp
  · unfold plot_predicted_components
    simp [hgood]

/-- Witness for C5 at concrete inputs: the length-3 pair `[10, 50, 90]` is
rejected by both plot functions, the length-2 pair `[10, 90]` and the `None`
default are accepted. -/
theorem percentile_shape_error_witness :
    (plot_predicted_data sampleTrain samplePred "date" "actual" "prediction"
        (some [10, 50, 90]) "" none none false false =
      .error (.valueError "prediction_percentiles has to be None or a list with length=2."))
    ∧ (plot_predicted_components sampleComponents "date" (some [10, 50, 90]) none "" none false =
      .error (.valueError "prediction_percentiles has to be None or a list with length=2."))
    ∧ (∃ r, plot_predicted_data sampleTrain samplePred "date" "actual" "prediction"
        none "" none none false false = .ok r)
    ∧ (∃ r, plot_predicted_data sampleTrain samplePred "date" "actual" "prediction"
        (some [10, 90]) "" none none false false = .ok r)
    ∧ (∃ r, plot_predicted_components sampleComponents "date" none none "" none false = .ok r)
    ∧ (∃ r, plot_predicted_components sampleComponents "date" (some [10, 90]) none "" none false = .ok r) :=
  percentile_shape_error sampleTrain samplePred sampleComponents "date" "date"
    "actual" "prediction" "" "" [10, 50, 90] [10, 90] none none none false
    false false none (by decide) (by decide) (by decide) (by decide) (by decide)

/-! ### C2 -/

/-- C2 counterexample: A training table whose timestamps are NOT strictly
increasing is not rejected: the call completes without raising any error, so
no ordering invariant on the training table is checked before plotting. -/
theorem training_order_not_checked_cex :
    is_ordered_datetime (sampleTrainUnordered.getCol "date") = false ∧
    noRaise (plot_predicted_data sampleTrainUnordered samplePred "date"
      "actual" "prediction" none "" none none false false) = true := by
  exact ⟨by decide, by decide⟩

/-- C2 amended: Only the prediction table's timestamps are validated:
for every non-empty training table — even one whose timestamps are not
strictly increasing (`h4`) — together with a non-empty prediction table with
ordered timestamps, `plot_predicted_data` succeeds without any error. -/
theorem training_order_not_checked (tdf pdf : DataFrame) (dc ac pc ti : String)
    (test : Option DataFrame) (path : Option String) (lp vis : Bool)
    (h1 : tdf.rows ≠ []) (h2 : pdf.rows ≠ [])
    (h3 : is_ordered_datetime (pdf.getCol dc) = true)
    (_h4 : is_ordered_datetime (tdf.getCol dc) = false) :
    ∃ r, plot_predicted_data tdf pdf dc ac pc none ti test path lp vis = .ok r := by
  unfold plot_predicted_data
  rw [is_empty_eq_false h1, is_empty_eq_false h2, h3]
  simp

/-- Witness for the amended C2 at a concrete unordered training table. -/
theorem training_order_not_checked_witness :
    ∃ r, plot_predicted_data sampleTrainUnordered samplePred "date" "actual"
      "prediction" none "" none none false false = .ok r :=
  training_order_not_checked sampleTrainUnordered samplePred "date" "actual"
    "prediction" "" none none false false
    (by decide) (by decide) (by decide) (by decide)

/-! ### C10 -/

/-- C10: `plot_predicted_components` performs no empty-table or
timestamp-ordering validation: whenever none of the requested components is a
column of the table — the table itself being arbitrary, e.g. empty or with
out-of-order dates — the call raises no error, renders zero panels and
returns an empty axes collection. -/
theorem components_no_validation (pdf : DataFrame) (dc ti : String)
    (comps : Option (List String)) (path : Option String) (vis : Bool)
    (h : (comps.getD ["trend", "seasonality", "regression"]).filter
        (fun p => pdf.hasCol p) = []) :
    plot_predicted_components pdf dc none comps ti path vis =
      .ok { axes := [], title := ti, saved := path, shown := vis } := by
  unfold plot_predicted_components
  simp [h]

/-- Witness for C10: a non-empty table with out-of-order dates and none of
the default components yields no error and an empty axes collection. -/
theorem components_no_validation_witness :
    plot_predicted_components sampleNoComponents "date" none none "" none false =
      .ok { axes := [], title := "", saved := none, shown := false } :=
  components_no_validation sampleNoComponents "date" "" none none false (by decide)

/-! ### C7 -/

/-- C7: `plot_predicted_components` filters the requested component list
to the columns present in the table and renders exactly one panel per
remaining component, in the requested order. -/
theorem components_filtered_panels (pdf : DataFrame) (dc ti : String)
    (comps : List String) (pp : Option (List Int)) (path : Option String)
    (vis : Bool) (hlen : (pp.getD [5, 95]).length = 2) :
    ∃ r, plot_predicted_components pdf dc pp (some comps) ti path vis = .ok r ∧
      r.axes.map (fun p => p.component) = comps.filter (fun c => pdf.hasCol c) := by
  unfold plot_predicted_components
  simp [hlen]
  exact List.map_id'' (fun x => rfl) _

/-- Witness for C7: requesting `["trend", "seasonality", "regression"]`
against a table with only `trend` and `seasonality` columns renders exactly
two panels, trend first, then seasonality. -/
theorem components_filtered_panels_witness :
    ∃ r, plot_predicted_components sampleComponents "date" none
        (some ["trend", "seasonality", "regression"]) "" none false = .ok r ∧
      r.axes.map (fun p => p.component) = ["trend", "seasonality"] :=
  components_filtered_panels sampleComponents "date" ""
    ["trend", "seasonality", "regression"] none none false (by decide)

/-! ### C6 -/

/-- C6 counterexample: The band is rendered verbatim from the two bound
columns: with `prediction_5 = [10]` and `prediction_95 = [0]` the band is
drawn although its lower value 10 exceeds its upper value 0, so the claim
that every rendered band satisfies lower ≤ upper fails on the code. -/
theorem band_lower_le_upper_cex :
    DrawCmd.fill_between [5] [10] [0] "PREDICTION_INTERVAL" ∈
      okCmds (plot_predicted_data sampleTrainFlat samplePredCross "date"
        "actual" "prediction" none "" none none false false) ∧
    ¬ ((10 : Value) ≤ 0) := by
  exact ⟨by decide, by decide⟩

/-- C6 amended: The rendered band consists of exactly the two derived
bound columns of the prediction table, copied unchecked; consequently its
lower values are ≤ its upper values at every timestamp precisely when the
input columns already satisfy that inequality (hypothesis `hle`), which the
code itself does not enforce. -/
theorem band_lower_le_upper (tdf pdf : DataFrame) (dc ac pc ti : String)
    (pp : Option (List Int)) (test : Option DataFrame) (path : Option String)
    (lp vis : Bool)
    (h1 : tdf.rows ≠ []) (h2 : pdf.rows ≠ [])
    (h3 : is_ordered_datetime (pdf.getCol dc) = true)
    (hlen : (pp.getD [5, 95]).length = 2)
    (hcols : (confidColNames (pp.getD [5, 95])).all (fun c => pdf.hasCol c) = true)
    (hle : ∀ i, (pdf.getCol ((confidColNames (pp.getD [5, 95])).getD 0 "")).getD i 0 ≤
        (pdf.getCol ((confidColNames (pp.getD [5, 95])).getD 1 "")).getD i 0) :
    ∃ r, plot_predicted_data tdf pdf dc ac pc pp ti test path lp vis = .ok r ∧
      DrawCmd.fill_between (pdf.getCol dc)
        (pdf.getCol ((confidColNames (pp.getD [5, 95])).getD 0 ""))
        (pdf.getCol ((confidColNames (pp.getD [5, 95])).getD 1 ""))
        "PREDICTION_INTERVAL" ∈ r.cmds ∧
      ∀ i, (pdf.getCol ((confidColNames (pp.getD [5, 95])).getD 0 "")).getD i 0 ≤
        (pdf.getCol ((confidColNames (pp.getD [5, 95])).getD 1 "")).getD i 0 := by
  unfold plot_predicted_data
  rw [is_empty_eq_false h1, is_empty_eq_false h2, h3]
  simp only [Bool.or_self, Bool.false_eq_true, if_false, Bool.not_true]
  rw [if_neg (by simp [hlen])]
  refine ⟨_, rfl, ?_, hle⟩
  simp [hcols]

/-- Witness for the amended C6: with the default percentile pair and a table
whose bound columns satisfy lower ≤ upper pointwise, the band is rendered
from exactly those columns. -/
theorem band_lower_le_upper_witness :
    ∃ r, plot_predicted_data sampleTrain samplePred "date" "actual"
        "prediction" none "" none none false false = .ok r ∧
      DrawCmd.fill_between (samplePred.getCol "date")
        (samplePred.getCol ((confidColNames ((none : Option (List Int)).getD [5, 95])).getD 0 ""))
        (samplePred.getCol ((confidColNames ((none : Option (List Int)).getD [5, 95])).getD 1 ""))
        "PREDICTION_INTERVAL" ∈ r.cmds ∧
      ∀ i, (samplePred.getCol ((confidColNames ((none : Option (List Int)).getD [5, 95])).getD 0 "")).getD i 0 ≤
        (samplePred.getCol ((confidColNames ((none : Option (List Int)).getD [5, 95])).getD 1 "")).getD i 0 :=
  by
  apply band_lower_le_upper sampleTrain samplePred "date" "actual" "prediction" ""
    none none none false false (by decide) (by decide) (by decide) (by decide) (by decide)
  intro i
  have h5 : samplePred.getCol ((confidColNames ((none : Option (List Int)).getD [5, 95])).getD 0 "") = [5, 6, 7] := by decide
  have h95 : samplePred.getCol ((confidColNames ((none : Option (List Int)).getD [5, 95])).getD 1 "") = [9, 10, 11] := by decide
  rw [h5, h95]
  match i with
  | 0 => decide
  | 1 => decide
  | 2 => decide
  | n + 3 => simp

/-! ### C1 -/

/-- C1 counterexample: `metric_horizon_barplot` has no `return`
statement: at a perfectly valid input (non-empty table with the three
expected columns), with the visibility flag false and no output path, the
call completes without raising but hands back `None` — not a non-null
rendering handle. -/
theorem barplot_returns_none_cex :
    sampleMetric.rows ≠ [] ∧ "model" ∈ sampleMetric.columns ∧
    noRaise (metric_horizon_barplot sampleMetric "model" "pred_horizon"
      "smape" 1 none false) = true ∧
    (metric_horizon_barplot sampleMetric "model" "pred_horizon" "smape" 1
        none false).toOption.map (fun r => r.ret) = some none := by
  refine ⟨by decide, by decide, by decide, by rfl⟩

/-- C1 amended: With the visibility flag false and no output path, on
valid inputs all four plot functions complete without raising;
`plot_predicted_data`, `plot_predicted_components` and `plot_bt_predictions`
return a (non-null) rendering handle, while `metric_horizon_barplot` returns
no handle at all (`ret = none`). -/
theorem plots_no_raise_handles
    (tdf pdf cdf mdf btdf : DataFrame) (dc ac pc dc2 ti ti2 : String)
    (test : Option DataFrame) (lp : Bool) (comps : Option (List String))
    (mc hc mec : String) (w : ℚ)
    (metrics : List Value → List Value → Value) (skl : Option (List Value))
    (ncol : Nat) (ivl : Bool)
    (h1 : tdf.rows ≠ []) (h2 : pdf.rows ≠ [])
    (h3 : is_ordered_datetime (pdf.getCol dc) = true)
    (h4 : models mdf mc ≠ []) (h5 : ncol ≠ 0) :
    (∃ r, plot_predicted_data tdf pdf dc ac pc none ti test none lp false = .ok r)
    ∧ (∃ r, plot_predicted_components cdf dc2 none comps ti2 none false = .ok r)
    ∧ (∃ r, plot_bt_predictions btdf metrics skl ncol ivl none false = .ok r)
    ∧ (∃ r, metric_horizon_barplot mdf mc hc mec w none false = .ok r ∧ r.ret = none) := by
  refine ⟨?_, ?_, ?_, ?_⟩
  · unfold plot_predicted_data
    rw [is_empty_eq_false h1, is_empty_eq_false h2, h3]
    simp
  · unfold plot_predicted_components
    simp
  · unfold plot_bt_predictions
    simp [h5]
  · unfold metric_horizon_barplot
    rw [if_neg (by simpa [List.length_eq_zero] using h4)]
    exact ⟨_, rfl, rfl⟩

/-- Witness for the amended C1 at concrete valid inputs for all four
functions. -/
theorem plots_no_raise_handles_witness :
    (∃ r, plot_predicted_data sampleTrain samplePred "date" "actual"
        "prediction" none "" none none false false = .ok r)
    ∧ (∃ r, plot_predicted_components sampleComponents "date" none none ""
        none false = .ok r)
    ∧ (∃ r, plot_bt_predictions sampleBacktest zeroMetric none 2 false none
        false = .ok r)
    ∧ (∃ r, metric_horizon_barplot sampleMetric "model" "pred_horizon"
        "smape" 1 none false = .ok r ∧ r.ret = none) :=
  plots_no_raise_handles sampleTrain samplePred sampleComponents sampleMetric
    sampleBacktest "date" "actual" "prediction" "date" "" "" none false none
    "model" "pred_horizon" "smape" 1 zeroMetric none 2 false
    (by decide) (by decide) (by decide) (by decide) (by decide)

/-! ### C8 -/

theorem enumFrom_map_fst_apply (g : Nat → β) :
    ∀ (l : List α) (n : Nat),
      (l.enumFrom n).map (fun ik => g ik.1) = (List.range' n l.length).map g
  | [], _ => rfl
  | x :: xs, n => by
    rw [List.enumFrom_cons, List.length_cons, List.range'_succ, List.map_cons,
      List.map_cons, enumFrom_map_fst_apply g xs (n + 1)]

theorem enum_map_fst_apply (l : List α) (g : Nat → β) :
    l.enum.map (fun ik => g ik.1) = (List.range l.length).map g := by
  rw [List.enum_eq_enumFrom, enumFrom_map_fst_apply, List.range_eq_range']

/-- C8: For every backtest input, n selected splits and a positive panel
column count `ncol`, the grid of `plot_bt_predictions` has exactly
⌈n / ncol⌉ = (n + ncol - 1) / ncol rows and `ncol` columns, panels are
filled in row-major order (the idx-th split at row idx / ncol, column
idx % ncol), and every grid cell past the n-th is unused. -/
theorem bt_grid_layout (btdf : DataFrame)
    (metrics : List Value → List Value → Value) (skl : Option (List Value))
    (ncol : Nat) (ivl : Bool) (path : Option String) (vis : Bool)
    (h : ncol ≠ 0) :
    ∃ r, plot_bt_predictions btdf metrics skl ncol ivl path vis = .ok r ∧
      r.nrow = ((skl.getD (pdUnique (btdf.getCol "split_key"))).length + ncol - 1) / ncol ∧
      r.ncol = ncol ∧
      r.panels.map (fun p => (p.row, p.col)) =
        (List.range (skl.getD (pdUnique (btdf.getCol "split_key"))).length).map
          (fun i => (i / ncol, i % ncol)) ∧
      (∀ i j : Nat, (skl.getD (pdUnique (btdf.getCol "split_key"))).length ≤ ncol * i + j →
        (i, j) ∉ r.panels.map (fun p => (p.row, p.col))) := by
  unfold plot_bt_predictions
  simp only [h, if_false, ite_false]
  refine ⟨_, rfl, rfl, rfl, ?_, ?_⟩
  · rw [List.map_map]
    exact enum_map_fst_apply _ (fun i => (i / ncol, i % ncol))
  · intro i j hge hmem
    rw [List.map_map] at hmem
    have hmem2 : (i, j) ∈ ((skl.getD (pdUnique (btdf.getCol "split_key"))).enum.map
        (fun ik => (ik.1 / ncol, ik.1 % ncol))) := hmem
    rw [enum_map_fst_apply _ (fun k => (k / ncol, k % ncol)), List.mem_map] at hmem2
    obtain ⟨k, hk, hkeq⟩ := hmem2
    rw [List.mem_range] at hk
    have hdiv : k / ncol = i := congrArg Prod.fst hkeq
    have hmod : k % ncol = j := congrArg Prod.snd hkeq
    have hk' : ncol * i + j = k := by
      rw [← hdiv, ← hmod]
      exact Nat.div_add_mod k ncol
    omega

/-- Witness for C8: three splits with `ncol = 2` give a 2 × 2 grid filled
row-major, with the last cell (1, 1) unused. -/
theorem bt_grid_layout_witness :
    ∃ r, plot_bt_predictions sampleBacktest zeroMetric (some [1, 2, 3]) 2
        false none false = .ok r ∧
      r.nrow = 2 ∧ r.ncol = 2 ∧
      r.panels.map (fun p => (p.row, p.col)) = [(0, 0), (0, 1), (1, 0)] ∧
      (1, 1) ∉ r.panels.map (fun p => (p.row, p.col)) := by
  obtain ⟨r, hok, hrow, hcol, hmap, hunused⟩ :=
    bt_grid_layout sampleBacktest zeroMetric (some [1, 2, 3]) 2 false none
      false (by decide)
  exact ⟨r, hok, hrow, hcol, hmap, hunused 1 1 (by decide)⟩

/-! ### C9 -/

theorem pdUniqueGo_mem :
    ∀ (xs acc : List Value) (a : Value),
      a ∈ pdUniqueGo acc xs ↔ a ∈ acc ∨ a ∈ xs := by
  intro xs
  induction xs with
  | nil => intro acc a; simp [pdUniqueGo]
  | cons x xs ih =>
    intro acc a
    rw [pdUniqueGo, ih]
    by_cases hx : x ∈ acc
    · rw [if_pos hx]
      simp only [List.mem_cons]
      constructor
      · rintro (h | h)
        · exact Or.inl h
        · exact Or.inr (Or.inr h)
      · rintro (h | h | h)
        · exact Or.inl h
        · exact Or.inl (h ▸ hx)
        · exact Or.inr h
    · rw [if_neg hx]
      simp only [List.mem_append, List.mem_cons, List.not_mem_nil, or_false]
      constructor
      · rintro ((h | h) | h)
        · exact Or.inl h
        · exact Or.inr (Or.inl h)
        · exact Or.inr (Or.inr h)
      · rintro (h | h | h)
        · exact Or.inl (Or.inl h)
        · exact Or.inl (Or.inr h)
        · exact Or.inr h

theorem pdUniqueGo_nodup :
    ∀ (xs acc : List Value), acc.Nodup → (pdUniqueGo acc xs).Nodup := by
  intro xs
  induction xs with
  | nil => intro acc h; simpa [pdUniqueGo] using h
  | cons x xs ih =>
    intro acc h
    rw [pdUniqueGo]
    by_cases hx : x ∈ acc
    · simp only [hx, if_true, ite_true]
      exact ih acc h
    · simp only [hx, if_false, ite_false]
      refine ih _ ?_
      rw [List.nodup_append]
      exact ⟨h, List.nodup_singleton x, fun a ha hb => hx ((List.mem_singleton.mp hb) ▸ ha)⟩

theorem pdUnique_mem (xs : List Value) (a : Value) : a ∈ pdUnique xs ↔ a ∈ xs := by
  unfold pdUnique
  rw [pdUniqueGo_mem]
  simp

theorem pdUnique_nodup (xs : List Value) : (pdUnique xs).Nodup :=
  pdUniqueGo_nodup xs [] List.nodup_nil

theorem pdUnique_toFinset (xs : List Value) : (pdUnique xs).toFinset = xs.toFinset := by
  ext a
  simp [List.mem_toFinset, pdUnique_mem]

theorem pdUnique_ne_nil {xs : List Value} (h : xs ≠ []) : pdUnique xs ≠ [] := by
  obtain ⟨a, ha⟩ := List.exists_mem_of_ne_nil xs h
  exact List.ne_nil_of_mem ((pdUnique_mem xs a).mpr ha)

theorem pdUnique_sum_count (xs : List Value) :
    ((pdUnique xs).map (fun m => xs.count m)).sum = xs.length := by
  rw [← List.sum_toFinset _ (pdUnique_nodup xs), pdUnique_toFinset,
    List.sum_toFinset_count_eq_length]

/-- The per-model bar heights partition the rows: their lengths sum to the
row count of the table, i.e. one bar height per (model, horizon) row. -/
theorem modelBars_sum_length (df : DataFrame) (mc vc : String)
    (hmc : mc ∈ df.columns) (hvc : vc ∈ df.columns) :
    ((modelBars df mc vc).map List.length).sum = df.numRows := by
  obtain ⟨i, hi⟩ := @col_findIdx_some df.columns mc hmc
  have hcol : df.getCol mc = df.rows.map (fun r => r.getD i 0) := getCol_eq_of_idx hi
  unfold modelBars models
  rw [List.map_map]
  have key : ∀ m : Value,
      (List.length ∘ fun m => (df.filterEq mc m).getCol vc) m = (df.getCol mc).count m := by
    intro m
    have hfe : df.filterEq mc m =
        { df with rows := df.rows.filter (fun r => r.getD i 0 == m) } := by
      unfold DataFrame.filterEq
      rw [hi]
    simp only [Function.comp_apply]
    rw [hfe,
      @getCol_length { df with rows := df.rows.filter (fun r => r.getD i 0 == m) } vc hvc,
      hcol, List.count_eq_countP, List.countP_map, List.countP_eq_length_filter]
    rfl
  rw [List.map_congr_left (fun m _ => key m), pdUnique_sum_count,
    getCol_length hmc]
  rfl

theorem barPositions_eq (g : Nat) (w : ℚ) :
    ∀ k, barPositions g w k = (List.range g).map (fun i => (i : ℚ) + k * w) := by
  intro k
  induction k with
  | zero => simp [barPositions]
  | succ k ih =>
    rw [barPositions, ih, List.map_map]
    refine List.map_congr_left (fun i _ => ?_)
    simp only [Function.comp_apply]
    push_cast
    ring

/-- C9: `metric_horizon_barplot` issues one `plt.bar` call per distinct
model, in first-occurrence order: the k-th model's bars sit at the base
positions 0, 1, …, offset by k times the bar width, carry that model's metric
values as heights, and use the k-th (distinct) palette color; the heights
drawn across all models are exactly one per row of the table. -/
theorem barplot_grouped_bars (df : DataFrame) (mc hc vc : String) (w : ℚ)
    (path : Option String) (vis : Bool)
    (hmc : mc ∈ df.columns) (hvc : vc ∈ df.columns) (hrows : df.rows ≠ []) :
    ∃ r, metric_horizon_barplot df mc hc vc w path vis = .ok r ∧
      r.cmds = (List.range (models df mc).length).map (fun (k : Nat) =>
        DrawCmd.bar
          ((List.range ((modelBars df mc vc).getD 0 []).length).map
            (fun i => (i : ℚ) + (k : ℚ) * w))
          ((modelBars df mc vc).getD k []) k w) ∧
      ((modelBars df mc vc).map List.length).sum = df.numRows := by
  have hne : models df mc ≠ [] := by
    unfold models
    refine pdUnique_ne_nil (fun hnil => ?_)
    have := getCol_length hmc
    rw [hnil] at this
    exact hrows (List.length_eq_zero.mp (by simpa using this.symm))
  unfold metric_horizon_barplot
  rw [if_neg (by simpa [List.length_eq_zero] using hne)]
  refine ⟨_, rfl, ?_, modelBars_sum_length df mc vc hmc hvc⟩
  refine List.map_congr_left (fun k hk => ?_)
  rw [barPositions_eq]

/-- Witness for C9: 2 models × 3 horizons give exactly two bar groups of
three heights each — 6 bars in 2 clusters, the second offset by the bar
width, with distinct palette colors 0 and 1. -/
theorem barplot_grouped_bars_witness :
    ∃ r, metric_horizon_barplot sampleMetric "model" "pred_horizon" "smape"
        (1 / 10) none false = .ok r ∧
      r.cmds = (List.range (models sampleMetric "model").length).map (fun (k : Nat) =>
        DrawCmd.bar
          ((List.range ((modelBars sampleMetric "model" "smape").getD 0 []).length).map
            (fun i => (i : ℚ) + (k : ℚ) * (1 / 10)))
          ((modelBars sampleMetric "model" "smape").getD k []) k (1 / 10)) ∧
      ((modelBars sampleMetric "model" "smape").map List.length).sum =
        sampleMetric.numRows :=
  barplot_grouped_bars sampleMetric "model" "pred_horizon" "smape" (1 / 10)
    none false (by decide) (by decide) (by decide)

end Orbit
